import Mathlib

/-!
Verification of the HyperDrive mock backend generators.

A shallow embedding of `src/backend/main.py`: the seed derivation, the
sensitivity-list generator (`get_sensitivity`), the graph generator
(`get_graph`) and the upload echo (`upload`), together with theorems
settling the specification claims.

Python's `random.Random(seed)` is modelled as a deterministic stream of
rational draws indexed by the draw position: `u : Nat → ℚ` with every
value in `[0, 1)` (the contract of `rnd.random()`), and each call of a
drawing primitive consumes exactly one stream position.  The universal
theorems quantify over every such stream, so they hold for Mersenne
Twister in particular; a concrete linear-congruential instantiation
(`randomStream`, the portable PRNG the design notes themselves suggest)
makes everything executable for concrete checks.
-/

set_option autoImplicit false

namespace HyperDrive

/-- A pseudo-random stream: every raw draw lies in `[0, 1)`.  This is the
contract of Python's `rnd.random()`. -/
def UnitStream (u : Nat → ℚ) : Prop :=
  ∀ n : Nat, 0 ≤ u n ∧ u n < 1

/-- One step of a linear congruential generator (glibc constants), state
kept below `2^31`. -/
def lcgNext (s : Nat) : Nat :=
  (1103515245 * s + 12345) % 2147483648

/-- The LCG state after `n + 1` steps from `seed`. -/
def lcgState (seed : Nat) : Nat → Nat
  | 0 => lcgNext (seed % 2147483648)
  | n + 1 => lcgNext (lcgState seed n)

/-- A concrete seeded stream of rationals in `[0, 1)`: the executable
model of `random.Random(seed)` (a documented LCG, per the design notes'
portability strategy). -/
def randomStream (seed : Nat) (n : Nat) : ℚ :=
  (lcgState seed n : ℚ) / 2147483648

/-- Models `rnd.random()`: return the draw at the current position and
advance the position by one. -/
def draw (u : Nat → ℚ) (p : Nat) : ℚ × Nat :=
  (u p, p + 1)

/-- Models `rnd.randint(a, b)`: one draw, scaled to the closed integer
range `[a, b]`. -/
def randint (u : Nat → ℚ) (a b : Nat) (p : Nat) : Nat × Nat :=
  (a + (⌊u p * ((b - a + 1 : Nat) : ℚ)⌋).toNat, p + 1)

/-- Models `rnd.choice(xs)`: one draw, scaled to an index into `xs`. -/
def choice (u : Nat → ℚ) (xs : List String) (p : Nat) : String × Nat :=
  (xs.getD (⌊u p * (xs.length : ℚ)⌋).toNat "", p + 1)

/-- Round-half-to-even on an integer scale: the integer nearest to `x`,
ties going to the even integer (Python's rounding mode). -/
def roundHalfEven (x : ℚ) : ℤ :=
  if x - ⌊x⌋ < 1 / 2 then ⌊x⌋
  else if 1 / 2 < x - ⌊x⌋ then ⌊x⌋ + 1
  else if ⌊x⌋ % 2 = 0 then ⌊x⌋ else ⌊x⌋ + 1

/-- Models Python `round(x, 3)`: round to three decimal places,
half-to-even. -/
def pyRound3 (x : ℚ) : ℚ :=
  (roundHalfEven (x * 1000) : ℚ) / 1000

/-- The sum of the character codes: `sum(ord(c) for c in s)`. -/
def charOrdSum (s : String) : Nat :=
  (s.data.map Char.toNat).sum

/-- The seed used by `get_sensitivity` (line 23 of `main.py`). -/
def sensSeed (job_id : String) : Nat :=
  charOrdSum job_id

/-- The seed used by `get_graph` (line 46 of `main.py`). -/
def graphSeed (job_id : String) : Nat :=
  charOrdSum job_id * 7

/-- Seed derivation as the specification words it: an endpoint-specific
multiplier times the sum of the character codes of the identifier. -/
def seedSpec (m : Nat) (s : String) : Nat :=
  m * (s.data.map Char.toNat).sum

/-- One `{layer, error}` record of the sensitivity response. -/
structure SensRecord where
  layer : String
  error : ℚ
  deriving DecidableEq, Repr

/-- The candidate set of layer types (line 28 of `main.py`). -/
def layerTypeChoices : List String :=
  ["Conv", "Attn", "Dense", "LayerNorm"]

/-- The body of the `get_sensitivity` loop for position `i` (lines 28-37
of `main.py`): choose a layer type, draw the base error, draw the spike
check and, only when the spike fires, draw the spike magnitude. -/
def sensLayer (u : Nat → ℚ) (i : Nat) (p : Nat) : SensRecord × Nat :=
  let tp := choice u layerTypeChoices p
  let name := tp.1 ++ "_" ++ toString i
  let bp := draw u tp.2
  let base := bp.1 * (8 / 100)
  let cp := draw u bp.2
  if cp.1 < 8 / 100 then
    let dp := draw u cp.2
    ({ layer := name, error := pyRound3 (base + dp.1 * (4 / 10)) }, dp.2)
  else
    ({ layer := name, error := pyRound3 base }, cp.2)

/-- Runs `k` iterations of the `get_sensitivity` loop starting at position `i`
and stream position `p`. -/
def sensLayers (u : Nat → ℚ) : Nat → Nat → Nat → List SensRecord
  | _, 0, _ => []
  | i, k + 1, p =>
      let rp := sensLayer u i p
      rp.1 :: sensLayers u (i + 1) k rp.2

/-- The sensitivity generator given its pseudo-random stream: draw
`num_layers` from `[6, 12]`, then run the loop for `i = 1..num_layers`. -/
def sensCore (u : Nat → ℚ) : List SensRecord :=
  let np := randint u 6 12 0
  sensLayers u 1 np.1 np.2

/-- The endpoint body `get_sensitivity(job_id)` (lines 19-38 of `main.py`). -/
def get_sensitivity (job_id : String) : List SensRecord :=
  sensCore (randomStream (sensSeed job_id))

/-- The sensitivity generator run with an explicit seed-derivation
multiplier `m` (the program itself uses `m = 1`). -/
def getSensitivityMult (m : Nat) (job_id : String) : List SensRecord :=
  sensCore (randomStream (m * charOrdSum job_id))

/-- A node's `position` dictionary: `{x, y}`. -/
structure NodePos where
  x : Int
  y : Int
  deriving DecidableEq, Repr

/-- A node's `data` dictionary: `{label, fused}`. -/
structure NodeData where
  label : String
  fused : Bool
  deriving DecidableEq, Repr

/-- One node of the graph response (lines 65-70 of `main.py`); the
`style` dictionary is always empty. -/
structure GraphNode where
  id : String
  data : NodeData
  position : NodePos
  style : List (String × String)
  deriving DecidableEq, Repr

/-- One edge of the graph response (lines 72-77 of `main.py`). -/
structure GraphEdge where
  id : String
  source : String
  target : String
  animated : Bool
  deriving DecidableEq, Repr

/-- The `{nodes, edges}` object returned by `get_graph`. -/
structure Graph where
  nodes : List GraphNode
  edges : List GraphEdge
  deriving DecidableEq, Repr

/-- The fixed label catalog (line 52 of `main.py`). -/
def layer_names : List String :=
  ["Input", "Conv_1", "Conv_2", "Pool", "Attn_1", "Dense", "Output"]

/-- Substring containment on character lists: `needle` occurs inside the
other list.  Models the Python expression `needle in hay` on strings. -/
def hasSub (needle : List Char) : List Char → Bool
  | [] => needle.isPrefixOf []
  | c :: rest => needle.isPrefixOf (c :: rest) || hasSub needle rest

/-- The body of the `get_graph` loop for index `idx` and label `lname`
(lines 57-70 of `main.py`): position the node, and draw the fusion check
only when the label contains `"Conv"` (Python's short-circuit `and`). -/
def graphStep (u : Nat → ℚ) (idx : Nat) (lname : String) (p : Nat) :
    GraphNode × Nat :=
  let x : Int := 50 + idx * 220
  let y : Int := 100 + (idx % 2) * 30
  let fp : Bool × Nat :=
    if hasSub "Conv".data lname.data then
      (decide (u p < 25 / 100), p + 1)
    else
      (false, p)
  ({ id := "n" ++ toString idx,
     data := { label := lname, fused := fp.1 },
     position := { x := x, y := y },
     style := [] }, fp.2)

/-- The `get_graph` loop over the remaining labels starting at index
`idx` and stream position `p`: build each node, and for every index
greater than zero the edge from the previous node. -/
def graphBuild (u : Nat → ℚ) : Nat → List String → Nat →
    List GraphNode × List GraphEdge
  | _, [], _ => ([], [])
  | idx, lname :: rest, p =>
      let np := graphStep u idx lname p
      let ne := graphBuild u (idx + 1) rest np.2
      (np.1 :: ne.1,
       if idx > 0 then
         { id := "e" ++ toString (idx - 1),
           source := "n" ++ toString (idx - 1),
           target := "n" ++ toString idx,
           animated := false } :: ne.2
       else ne.2)

/-- The graph generator given its pseudo-random stream. -/
def graphCore (u : Nat → ℚ) : Graph :=
  let ne := graphBuild u 0 layer_names 0
  { nodes := ne.1, edges := ne.2 }

/-- The endpoint body `get_graph(job_id)` (lines 41-79 of `main.py`). -/
def get_graph (job_id : String) : Graph :=
  graphCore (randomStream (graphSeed job_id))

/-- The serialized shape of one emitted edge: the key/value pairs of the
dictionary literal at lines 72-77 of `main.py`, in that order.  Values
are either strings or booleans. -/
inductive JVal where
  | s (v : String)
  | b (v : Bool)
  deriving DecidableEq, Repr

/-- The association list an edge serializes to. -/
def edgeToObj (e : GraphEdge) : List (String × JVal) :=
  [("id", JVal.s e.id), ("source", JVal.s e.source),
   ("target", JVal.s e.target), ("animated", JVal.b e.animated)]

/-- The filename / declared content type of an uploaded file, as the
upload endpoint reports them. -/
structure FileInfo where
  filename : String
  content_type : String
  deriving DecidableEq, Repr

/-- The response of the upload endpoint. -/
structure UploadResponse where
  status : String
  file : FileInfo
  calibration_file : Option FileInfo
  metadata : Option String
  deriving DecidableEq, Repr

/-- The endpoint body `upload(file, calibration_file, metadata)` (lines 103-113 of
`main.py`): echo the main file's info, the optional calibration file's
info when present (`None` otherwise) and the optional metadata text. -/
def upload (file : FileInfo) (calibration_file : Option FileInfo)
    (metadata : Option String) : UploadResponse :=
  let file_info : FileInfo :=
    { filename := file.filename, content_type := file.content_type }
  let calib_info : Option FileInfo :=
    match calibration_file with
    | none => none
    | some c => some { filename := c.filename, content_type := c.content_type }
  { status := "ok", file := file_info, calibration_file := calib_info,
    metadata := metadata }

/-- The graph every call of `get_graph` returns, up to the two fusion
flags `f1` (node `n1`, label `Conv_1`) and `f2` (node `n2`, label
`Conv_2`): every other field is a constant of the program. -/
def graphTemplate (f1 f2 : Bool) : Graph :=
  { nodes :=
      [{ id := "n0", data := { label := "Input", fused := false },
         position := { x := 50, y := 100 }, style := [] },
       { id := "n1", data := { label := "Conv_1", fused := f1 },
         position := { x := 270, y := 130 }, style := [] },
       { id := "n2", data := { label := "Conv_2", fused := f2 },
         position := { x := 490, y := 100 }, style := [] },
       { id := "n3", data := { label := "Pool", fused := false },
         position := { x := 710, y := 130 }, style := [] },
       { id := "n4", data := { label := "Attn_1", fused := false },
         position := { x := 930, y := 100 }, style := [] },
       { id := "n5", data := { label := "Dense", fused := false },
         position := { x := 1150, y := 130 }, style := [] },
       { id := "n6", data := { label := "Output", fused := false },
         position := { x := 1370, y := 100 }, style := [] }],
    edges :=
      [{ id := "e0", source := "n0", target := "n1", animated := false },
       { id := "e1", source := "n1", target := "n2", animated := false },
       { id := "e2", source := "n2", target := "n3", animated := false },
       { id := "e3", source := "n3", target := "n4", animated := false },
       { id := "e4", source := "n4", target := "n5", animated := false },
       { id := "e5", source := "n5", target := "n6", animated := false }] }

/-- The LCG step keeps its state below the modulus. -/
theorem lcgNext_lt (s : Nat) : lcgNext s < 2147483648 :=
  Nat.mod_lt _ (by norm_num)

/-- Every LCG state is below the modulus. -/
theorem lcgState_lt (seed : Nat) : ∀ n, lcgState seed n < 2147483648
  | 0 => lcgNext_lt _
  | _ + 1 => lcgNext_lt _

/-- The concrete seeded stream only produces values in `[0, 1)`. -/
theorem randomStream_unit (seed : Nat) : UnitStream (randomStream seed) := by
  intro n
  unfold randomStream
  constructor
  · positivity
  · rw [div_lt_one (by norm_num)]
    exact_mod_cast lcgState_lt seed n

/-- Rounding half-to-even never goes below the floor. -/
theorem le_roundHalfEven (x : ℚ) : ⌊x⌋ ≤ roundHalfEven x := by
  unfold roundHalfEven
  split
  · exact le_refl _
  · split
    · omega
    · split <;> omega

/-- Rounding half-to-even never exceeds the floor plus one. -/
theorem roundHalfEven_le (x : ℚ) : roundHalfEven x ≤ ⌊x⌋ + 1 := by
  unfold roundHalfEven
  split
  · omega
  · split
    · omega
    · split <;> omega

/-- Rounding to three decimals keeps a value of `[0, N/1000)` inside
`[0, N/1000]`. -/
theorem pyRound3_bounds (N : Nat) (x : ℚ) (h0 : 0 ≤ x)
    (h1 : x < (N : ℚ) / 1000) :
    0 ≤ pyRound3 x ∧ pyRound3 x ≤ (N : ℚ) / 1000 := by
  have hf0 : (0 : ℤ) ≤ ⌊x * 1000⌋ := Int.floor_nonneg.mpr (by positivity)
  have hfN : ⌊x * 1000⌋ < (N : ℤ) := by
    apply Int.floor_lt.mpr
    push_cast
    linarith
  have hlo := le_roundHalfEven (x * 1000)
  have hhi := roundHalfEven_le (x * 1000)
  have hr0 : (0 : ℤ) ≤ roundHalfEven (x * 1000) := le_trans hf0 hlo
  have hrN : roundHalfEven (x * 1000) ≤ (N : ℤ) := by omega
  have hq0 : (0 : ℚ) ≤ (roundHalfEven (x * 1000) : ℚ) := by exact_mod_cast hr0
  have hqN : ((roundHalfEven (x * 1000) : ℤ) : ℚ) ≤ (N : ℚ) := by
    exact_mod_cast hrN
  unfold pyRound3
  constructor
  · positivity
  · linarith

/-- One loop iteration of the sensitivity generator yields an error that
is either a rounded baseline from `[0, 0.08)` or a rounded baseline plus
a spike magnitude from `[0, 0.4)`. -/
theorem sensLayer_spec (u : Nat → ℚ) (i p : Nat) (hu : UnitStream u) :
    ∃ x y : ℚ, 0 ≤ x ∧ x < 8 / 100 ∧ 0 ≤ y ∧ y < 4 / 10 ∧
      ((sensLayer u i p).1.error = pyRound3 x ∨
       (sensLayer u i p).1.error = pyRound3 (x + y)) := by
  have hb0 := (hu (p + 1)).1
  have hb1 := (hu (p + 1)).2
  have hd0 := (hu (p + 3)).1
  have hd1 := (hu (p + 3)).2
  refine ⟨u (p + 1) * (8 / 100), u (p + 3) * (4 / 10),
    by positivity, by nlinarith, by positivity, by nlinarith, ?_⟩
  simp only [sensLayer, choice, draw]
  split
  · right; rfl
  · left; rfl

/-- Every record of the sensitivity loop satisfies the per-iteration
error description. -/
theorem sensLayers_spec (u : Nat → ℚ) (hu : UnitStream u) :
    ∀ (k i p : Nat) (r : SensRecord), r ∈ sensLayers u i k p →
      ∃ x y : ℚ, 0 ≤ x ∧ x < 8 / 100 ∧ 0 ≤ y ∧ y < 4 / 10 ∧
        (r.error = pyRound3 x ∨ r.error = pyRound3 (x + y)) := by
  intro k
  induction k with
  | zero => intro i p r hr; simp [sensLayers] at hr
  | succ k ih =>
      intro i p r hr
      simp only [sensLayers] at hr
      rcases List.mem_cons.mp hr with h | h
      · subst h
        exact sensLayer_spec u i p hu
      · exact ih (i + 1) (sensLayer u i p).2 r h

/-- The sensitivity loop emits exactly one record per iteration. -/
theorem sensLayers_length (u : Nat → ℚ) (k : Nat) :
    ∀ i p, (sensLayers u i k p).length = k := by
  induction k with
  | zero => intro i p; rfl
  | succ k ih =>
      intro i p
      simp only [sensLayers, List.length_cons, ih]

/-- The `num_layers` draw lies in the closed range `[6, 12]`. -/
theorem numLayers_bounds (u : Nat → ℚ) (hu : UnitStream u) :
    6 ≤ (randint u 6 12 0).1 ∧ (randint u 6 12 0).1 ≤ 12 := by
  have h0 := (hu 0).1
  have h1 := (hu 0).2
  have hf0 : (0 : ℤ) ≤ ⌊u 0 * ((12 - 6 + 1 : Nat) : ℚ)⌋ :=
    Int.floor_nonneg.mpr (mul_nonneg h0 (by positivity))
  have hf7 : ⌊u 0 * ((12 - 6 + 1 : Nat) : ℚ)⌋ < 7 := by
    apply Int.floor_lt.mpr
    push_cast
    nlinarith
  constructor
  · show 6 ≤ 6 + (⌊u 0 * ((12 - 6 + 1 : Nat) : ℚ)⌋).toNat
    omega
  · show 6 + (⌊u 0 * ((12 - 6 + 1 : Nat) : ℚ)⌋).toNat ≤ 12
    omega

/-- The sensitivity generator emits between 6 and 12 records. -/
theorem sensCore_length (u : Nat → ℚ) (hu : UnitStream u) :
    6 ≤ (sensCore u).length ∧ (sensCore u).length ≤ 12 := by
  show 6 ≤ (sensLayers u 1 (randint u 6 12 0).1 (randint u 6 12 0).2).length ∧
    (sensLayers u 1 (randint u 6 12 0).1 (randint u 6 12 0).2).length ≤ 12
  rw [sensLayers_length]
  exact numLayers_bounds u hu

/-- Every record of the sensitivity generator satisfies the
per-iteration error description. -/
theorem sensCore_spec (u : Nat → ℚ) (hu : UnitStream u) (r : SensRecord)
    (hr : r ∈ sensCore u) :
    ∃ x y : ℚ, 0 ≤ x ∧ x < 8 / 100 ∧ 0 ≤ y ∧ y < 4 / 10 ∧
      (r.error = pyRound3 x ∨ r.error = pyRound3 (x + y)) :=
  sensLayers_spec u hu (randint u 6 12 0).1 1 (randint u 6 12 0).2 r hr

/-- Every error of the sensitivity generator lies in `[0, 0.48]`. -/
theorem sensCore_error_bounds (u : Nat → ℚ) (hu : UnitStream u)
    (r : SensRecord) (hr : r ∈ sensCore u) :
    0 ≤ r.error ∧ r.error ≤ 48 / 100 := by
  obtain ⟨x, y, hx0, hx8, hy0, hy4, herr⟩ := sensCore_spec u hu r hr
  have h480 : ((480 : Nat) : ℚ) / 1000 = 48 / 100 := by norm_num
  rcases herr with h | h <;> rw [h]
  · have hb := pyRound3_bounds 480 x hx0 (by rw [h480]; linarith)
    exact ⟨hb.1, by linarith [hb.2, h480.le]⟩
  · have hb := pyRound3_bounds 480 (x + y) (by linarith) (by rw [h480]; linarith)
    exact ⟨hb.1, by linarith [hb.2, h480.le]⟩

/-- Claim C1: for every job identifier `S` and seed-derivation multiplier `m`,
any two invocations of the sensitivity generator yield identical
sequences: the same length, the same layer names in the same order, and
the same error values. -/
theorem claim_C1_sensitivity_deterministic (m : Nat) (S : String)
    (r1 r2 : List SensRecord)
    (h1 : r1 = getSensitivityMult m S) (h2 : r2 = getSensitivityMult m S) :
    r1.length = r2.length ∧
    r1.map SensRecord.layer = r2.map SensRecord.layer ∧
    r1.map SensRecord.error = r2.map SensRecord.error := by
  subst h1; subst h2
  exact ⟨rfl, rfl, rfl⟩

/-- Witness for C1 at the identifier `"abc"` with multiplier 1. -/
theorem claim_C1_sensitivity_deterministic_witness :
    (getSensitivityMult 1 "abc").length = (getSensitivityMult 1 "abc").length ∧
    (getSensitivityMult 1 "abc").map SensRecord.layer =
      (getSensitivityMult 1 "abc").map SensRecord.layer ∧
    (getSensitivityMult 1 "abc").map SensRecord.error =
      (getSensitivityMult 1 "abc").map SensRecord.error :=
  claim_C1_sensitivity_deterministic 1 "abc" _ _ rfl rfl

/-- Claim C2: both endpoints derive their seed as the endpoint multiplier (1
for sensitivity, 7 for graph) times the sum of the character codes of
the identifier, the derivation is total, and the empty string yields
seed 0 for every multiplier. -/
theorem claim_C2_seed_derivation (s : String) (m : Nat) :
    sensSeed s = seedSpec 1 s ∧ graphSeed s = seedSpec 7 s ∧
    seedSpec m "" = 0 := by
  refine ⟨?_, ?_, ?_⟩
  · simp [sensSeed, seedSpec, charOrdSum]
  · simp [graphSeed, seedSpec, charOrdSum, Nat.mul_comm]
  · rfl

/-- Claim C3: for every identifier the sensitivity sequence has between 6 and
12 records, and every error value lies in `[0, 1]`, being the unclamped
result of one of the two draw formulas (a rounded baseline from
`[0, 0.08)`, or that baseline plus a spike magnitude from `[0, 0.4)`,
rounded). -/
theorem claim_C3_sensitivity_bounds (j : String) :
    6 ≤ (get_sensitivity j).length ∧ (get_sensitivity j).length ≤ 12 ∧
    ∀ r ∈ get_sensitivity j,
      (0 ≤ r.error ∧ r.error ≤ 1) ∧
      ∃ x y : ℚ, 0 ≤ x ∧ x < 8 / 100 ∧ 0 ≤ y ∧ y < 4 / 10 ∧
        (r.error = pyRound3 x ∨ r.error = pyRound3 (x + y)) := by
  have hu := randomStream_unit (sensSeed j)
  refine ⟨(sensCore_length _ hu).1, (sensCore_length _ hu).2, ?_⟩
  intro r hr
  have hb := sensCore_error_bounds _ hu r hr
  exact ⟨⟨hb.1, le_trans hb.2 (by norm_num)⟩, sensCore_spec _ hu r hr⟩

/-- Witness for C3 at the identifier `"abc"` and the first emitted
record. -/
theorem claim_C3_sensitivity_bounds_witness :
    (0 ≤ ({ layer := "Dense_1", error := 7 / 200 } : SensRecord).error ∧
      ({ layer := "Dense_1", error := 7 / 200 } : SensRecord).error ≤ 1) ∧
    ∃ x y : ℚ, 0 ≤ x ∧ x < 8 / 100 ∧ 0 ≤ y ∧ y < 4 / 10 ∧
      (({ layer := "Dense_1", error := 7 / 200 } : SensRecord).error =
        pyRound3 x ∨
       ({ layer := "Dense_1", error := 7 / 200 } : SensRecord).error =
        pyRound3 (x + y)) :=
  (claim_C3_sensitivity_bounds "abc").2.2
    { layer := "Dense_1", error := 7 / 200 } (by with_unfolding_all decide)

/-- Claim C4: for every identifier the graph has exactly 7 nodes labelled by
the fixed catalog in order, ids `n0..n6`, exactly 6 edges forming the
single chain `n0 → n1 → ... → n6`, and strictly increasing node
x-coordinates. -/
theorem claim_C4_graph_shape (j : String) :
    (get_graph j).nodes.length = 7 ∧
    (get_graph j).nodes.map (fun n => n.data.label) = layer_names ∧
    (get_graph j).nodes.map GraphNode.id =
      ["n0", "n1", "n2", "n3", "n4", "n5", "n6"] ∧
    (get_graph j).edges.map (fun e => (e.source, e.target)) =
      [("n0", "n1"), ("n1", "n2"), ("n2", "n3"), ("n3", "n4"),
       ("n4", "n5"), ("n5", "n6")] ∧
    List.Chain' (fun a b => a < b)
      ((get_graph j).nodes.map (fun n => n.position.x)) := by
  refine ⟨rfl, rfl, rfl, rfl, ?_⟩
  have hx : (get_graph j).nodes.map (fun n => n.position.x) =
      [50, 270, 490, 710, 930, 1150, 1370] := rfl
  rw [hx]
  norm_num [List.chain'_cons]

/-- Claim C6, as stated, is false: the first edge of the graph for the empty
identifier serializes with an extra `animated` key, so its shape is not
exactly `{id, source, target}`. -/
theorem claim_C6_counterexample :
    ¬ ((edgeToObj ((get_graph "").edges.getD 0
        { id := "", source := "", target := "", animated := false })).map
          Prod.fst = ["id", "source", "target"]) := by
  decide

/-- Claim C6 amended: every emitted edge serializes to exactly the keys
`{id, source, target, animated}` with `animated = false`, and its source
and target reference ids of nodes present in the returned node list. -/
theorem claim_C6_edges_reference_nodes (j : String) (e : GraphEdge)
    (he : e ∈ (get_graph j).edges) :
    (edgeToObj e).map Prod.fst = ["id", "source", "target", "animated"] ∧
    e.animated = false ∧
    e.source ∈ (get_graph j).nodes.map GraphNode.id ∧
    e.target ∈ (get_graph j).nodes.map GraphNode.id := by
  have hN : (get_graph j).nodes.map GraphNode.id =
      ["n0", "n1", "n2", "n3", "n4", "n5", "n6"] := rfl
  have hE : (get_graph j).edges =
      [{ id := "e0", source := "n0", target := "n1", animated := false },
       { id := "e1", source := "n1", target := "n2", animated := false },
       { id := "e2", source := "n2", target := "n3", animated := false },
       { id := "e3", source := "n3", target := "n4", animated := false },
       { id := "e4", source := "n4", target := "n5", animated := false },
       { id := "e5", source := "n5", target := "n6", animated := false }] := rfl
  rw [hE] at he
  rw [hN]
  fin_cases he <;> exact ⟨rfl, rfl, by decide, by decide⟩

/-- Witness for the amended C6 at the empty identifier and its first
edge. -/
theorem claim_C6_edges_reference_nodes_witness :
    (edgeToObj { id := "e0", source := "n0", target := "n1",
                 animated := false }).map Prod.fst =
      ["id", "source", "target", "animated"] ∧
    ({ id := "e0", source := "n0", target := "n1",
       animated := false } : GraphEdge).animated = false ∧
    "n0" ∈ (get_graph "").nodes.map GraphNode.id ∧
    "n1" ∈ (get_graph "").nodes.map GraphNode.id :=
  claim_C6_edges_reference_nodes ""
    { id := "e0", source := "n0", target := "n1", animated := false }
    (by decide)

/-- Claim C5: in the graph generator, a node whose label contains `"Conv"`
consumes exactly one stream draw and is fused exactly when that draw is
below `0.25`; a node whose label does not contain `"Conv"` consumes no
draw and is never fused. -/
theorem claim_C5_fused_draw_discipline (u : Nat → ℚ) (idx : Nat)
    (lname : String) (p : Nat) :
    (hasSub "Conv".data lname.data = true →
      (graphStep u idx lname p).2 = p + 1 ∧
      ((graphStep u idx lname p).1.data.fused = true ↔ u p < 25 / 100)) ∧
    (hasSub "Conv".data lname.data = false →
      (graphStep u idx lname p).2 = p ∧
      (graphStep u idx lname p).1.data.fused = false) := by
  constructor <;> intro h <;> simp [graphStep, h]

/-- Witness for C5 at the label `Conv_1`, index 1, position 0 of the
stream seeded with 0. -/
theorem claim_C5_fused_draw_discipline_witness :
    (graphStep (randomStream 0) 1 "Conv_1" 0).2 = 0 + 1 ∧
    ((graphStep (randomStream 0) 1 "Conv_1" 0).1.data.fused = true ↔
      randomStream 0 0 < 25 / 100) :=
  (claim_C5_fused_draw_discipline (randomStream 0) 1 "Conv_1" 0).1 (by decide)

/-- Claim C7: whenever the identifier's character-code sum is nonzero, the
sensitivity seed and the graph seed differ. -/
theorem claim_C7_seeds_differ (j : String) (h : charOrdSum j ≠ 0) :
    sensSeed j ≠ graphSeed j := by
  simp only [sensSeed, graphSeed]
  omega

/-- Witness for C7 at the identifier `"a"` (character-code sum 97). -/
theorem claim_C7_seeds_differ_witness :
    sensSeed "a" ≠ graphSeed "a" :=
  claim_C7_seeds_differ "a" (by decide)

/-- Claim C8: calling the upload endpoint with only the required file always
succeeds, with `calibration_file` and `metadata` both absent (`none`) in
the response. -/
theorem claim_C8_upload_optional_absent (f : FileInfo) :
    (upload f none none).status = "ok" ∧
    (upload f none none).calibration_file = none ∧
    (upload f none none).metadata = none :=
  ⟨rfl, rfl, rfl⟩

/-- Claim C9: for every identifier, every error value of the sensitivity
sequence is at most `0.48` — strictly tighter than the specified
`[0, 1]` — because the baseline is below `0.08`, the spike addition is
below `0.4`, and rounding to three decimals cannot push the sum past
`0.48`. -/
theorem claim_C9_error_at_most_048 (j : String) (r : SensRecord)
    (hr : r ∈ get_sensitivity j) : r.error ≤ 48 / 100 :=
  (sensCore_error_bounds _ (randomStream_unit (sensSeed j)) r hr).2

/-- Witness for C9 at the empty identifier and the first emitted
record. -/
theorem claim_C9_error_at_most_048_witness :
    ({ layer := "Dense_1", error := 3 / 125 } : SensRecord).error ≤ 48 / 100 :=
  claim_C9_error_at_most_048 "" { layer := "Dense_1", error := 3 / 125 }
    (by with_unfolding_all decide)

/-- Claim C10: for any two identifiers, the two graphs agree on every field —
node ids, labels, positions, style maps, and the whole edge list —
except possibly the fused flags of the nodes labelled `Conv_1` and
`Conv_2`: both graphs are instances of the same fixed template. -/
theorem claim_C10_graphs_agree_except_fused (j1 j2 : String) :
    ∃ a b c d : Bool,
      get_graph j1 = graphTemplate a b ∧ get_graph j2 = graphTemplate c d :=
  ⟨decide (randomStream (graphSeed j1) 0 < 25 / 100),
   decide (randomStream (graphSeed j1) 1 < 25 / 100),
   decide (randomStream (graphSeed j2) 0 < 25 / 100),
   decide (randomStream (graphSeed j2) 1 < 25 / 100),
   rfl, rfl⟩

end HyperDrive
